import Mathlib

/-
Verification development for the games101 ray-tracing renderer
(src/Renderer.hpp and the unnamed variant src/unnamed/part_000, which share
the shading core verbatim).  Floating-point scalars of the C++ code are
modelled as real numbers; machine floats' rounding is not modelled, but all
branch structure, comparisons and formulas follow the source line by line.
-/

noncomputable section

open scoped Classical

namespace RayTracer

/-- Vector3f (src/unnamed/part_000 lines 190-223): three scalar channels. -/
structure Vec3 where
  x : ℝ
  y : ℝ
  z : ℝ

/-- Vector2f (src/unnamed/part_000 lines 229-239). -/
structure Vec2 where
  x : ℝ
  y : ℝ

instance : Add Vec3 := ⟨fun a b => ⟨a.x + b.x, a.y + b.y, a.z + b.z⟩⟩

instance : Sub Vec3 := ⟨fun a b => ⟨a.x - b.x, a.y - b.y, a.z - b.z⟩⟩

instance : Neg Vec3 := ⟨fun a => ⟨-a.x, -a.y, -a.z⟩⟩

/-- Componentwise product, `Vector3f::operator*(const Vector3f&)`. -/
instance : Mul Vec3 := ⟨fun a b => ⟨a.x * b.x, a.y * b.y, a.z * b.z⟩⟩

/-- `Vector3f::operator*(const float&)`. -/
instance : HMul Vec3 ℝ Vec3 := ⟨fun v r => ⟨v.x * r, v.y * r, v.z * r⟩⟩

/-- friend `operator*(const float&, const Vector3f&)`. -/
instance : HMul ℝ Vec3 Vec3 := ⟨fun r v => ⟨v.x * r, v.y * r, v.z * r⟩⟩

/-- `Vector3f::operator/(const float&)`. -/
instance : HDiv Vec3 ℝ Vec3 := ⟨fun v r => ⟨v.x / r, v.y / r, v.z / r⟩⟩

/-- `Vector3f(0)` broadcast constructor used as the additive accumulator seed. -/
instance : Zero Vec3 := ⟨⟨0, 0, 0⟩⟩

/-- `dotProduct` (src/unnamed/part_000 line 253). -/
def dotProduct (a b : Vec3) : ℝ := a.x * b.x + a.y * b.y + a.z * b.z

/-- `length` (src/unnamed/part_000 line 225). -/
def length (a : Vec3) : ℝ := Real.sqrt (a.x * a.x + a.y * a.y + a.z * a.z)

/-- `normalize` (src/unnamed/part_000 line 249): `v / length(v)`.
In the real-number model a division by a zero length yields the zero vector
(the IEEE code would yield NaN components there). -/
def normalize (v : Vec3) : Vec3 := v / length v

/-- Modelled from the spec: `clamp(lo, hi, v)` lives in the repository's
`global.hpp`, which is not under src/; the spec describes its uses as clamping
a value into `[lo, hi]` (for example `clamp(I·N, -1, 1)` and `clamp(color,0,1)`),
so it is the standard `max lo (min hi v)`. -/
def clamp (lo hi v : ℝ) : ℝ := max lo (min hi v)

/-- `kInfinity = std::numeric_limits<float>::max()` (Renderer.hpp line 5);
FLT_MAX is exactly 2^128 - 2^104. -/
def kInfinity : ℝ := 2 ^ (128 : ℕ) - 2 ^ (104 : ℕ)

/-- `reflect` (Renderer.hpp lines 16-18): `I - 2 (I·N) N`. -/
def reflect (I N : Vec3) : Vec3 := I - 2 * dotProduct I N * N

/-- `refract` (Renderer.hpp lines 20-27).  `cosi = |clamp(-1,1,I·N)|`;
discriminant `t = 1 - (1/ior)·(1/ior)·(1 - cosi²)`; returns the zero vector
when `t < 0`, else `(1/ior) I + ((1/ior) cosi - sqrt t) N`. -/
def refract (I N : Vec3) (ior : ℝ) : Vec3 :=
  let cosi := |clamp (-1) 1 (dotProduct I N)|
  let t := 1 - 1 / ior * (1 / ior) * (1 - cosi * cosi)
  if t < 0 then 0
  else
    let coso := Real.sqrt t
    (1 / ior) * I + (1 / ior * cosi - coso) * N

/-- `fresnel` (Renderer.hpp lines 29-33), Schlick's approximation:
`R0 = ((1-ior)/(1+ior))²`, `kr = R0 + (1-R0)(1-cosi)⁵`. -/
def fresnel (I N : Vec3) (ior : ℝ) : ℝ :=
  let cosi := |clamp (-1) 1 (dotProduct I N)|
  let R0 := ((1 - ior) / (1 + ior)) ^ (2 : ℕ)
  R0 + (1 - R0) * (1 - cosi) ^ (5 : ℕ)

/-- Material kinds from the scene headers (`global.hpp`, not under src/):
the shading dispatch in Renderer.hpp names `REFLECTION_AND_REFRACTION` and
`REFLECTION` and a default (diffuse/Phong) case. -/
inductive MaterialType where
  | DIFFUSE_AND_GLOSSY
  | REFLECTION_AND_REFRACTION
  | REFLECTION

/-- The polymorphic `Object` capability set consumed by Renderer.hpp
(`intersect`, `getSurfaceProperties`, `evalDiffuseColor`, material fields);
the primitive implementations (Sphere, MeshTriangle) are external
collaborators, so an Object is a bundle of abstract functions.
`intersect(orig, dir, tNear, index, uv)` returns its nearest intersection
as `some (tNear, index, uv)` or `none`. -/
structure Object where
  intersect : Vec3 → Vec3 → Option (ℝ × ℕ × Vec2)
  getSurfaceProperties : Vec3 → Vec3 → ℕ → Vec2 → Vec3 × Vec2
  evalDiffuseColor : Vec2 → Vec3
  materialType : MaterialType
  ior : ℝ
  Kd : ℝ
  Ks : ℝ
  specularExponent : ℝ

/-- `hit_payload` (Renderer.hpp lines 7-12). -/
structure HitPayload where
  tNear : ℝ
  index : ℕ
  uv : Vec2
  hit_obj : Object

/-- Point light: position + intensity (Light class of the scene headers). -/
structure Light where
  position : Vec3
  intensity : Vec3

/-- Scene parameters consumed by castRay/Render (Scene.hpp is not under src/,
but Renderer.hpp reads exactly these fields: maxDepth, epsilon,
backgroundColor, get_objects(), get_lights()). -/
structure Scene where
  maxDepth : ℕ
  epsilon : ℝ
  backgroundColor : Vec3
  objects : List Object
  lights : List Light

/-- Loop body of `trace` (Renderer.hpp lines 40-52): running nearest distance
`tNear` starts at `kInfinity`; a hit is taken only when the reported
`tNearK` is strictly smaller than the running `tNear`. -/
def traceAux (orig dir : Vec3) : List Object → ℝ → Option HitPayload → Option HitPayload
  | [], _, payload => payload
  | o :: rest, tNear, payload =>
    match o.intersect orig dir with
    | some (tNearK, indexK, uvK) =>
      if tNearK < tNear then
        traceAux orig dir rest tNearK (some ⟨tNearK, indexK, uvK, o⟩)
      else traceAux orig dir rest tNear payload
    | none => traceAux orig dir rest tNear payload

/-- `trace` (Renderer.hpp lines 35-54). -/
def trace (orig dir : Vec3) (objects : List Object) : Option HitPayload :=
  traceAux orig dir objects kInfinity none

/-- Reflection direction of the REFLECTION_AND_REFRACTION branch
(Renderer.hpp line 71): `normalize(reflect(dir, N))`. -/
def reflDirRR (dir N : Vec3) : Vec3 := normalize (reflect dir N)

/-- Refraction direction of the REFLECTION_AND_REFRACTION branch
(Renderer.hpp lines 72-73): `normalize(refract(dir, N, ior))`. -/
def refrDirRR (dir N : Vec3) (ior : ℝ) : Vec3 := normalize (refract dir N ior)

/-- Reflection direction of the REFLECTION branch (Renderer.hpp line 90):
`reflect(dir, N)` with no normalization. -/
def reflDirR (dir N : Vec3) : Vec3 := reflect dir N

/-- Secondary-ray origin offset of the REFLECTION_AND_REFRACTION branch
(Renderer.hpp lines 74-79), used for both the reflection and the refraction
ray: `dot(newDir, N) < 0 ? hitPoint - N*eps : hitPoint + N*eps`. -/
def secondaryOrigRR (hitPoint N : Vec3) (eps : ℝ) (newDir : Vec3) : Vec3 :=
  if dotProduct newDir N < 0 then hitPoint - N * eps else hitPoint + N * eps

/-- Reflection-ray origin offset of the REFLECTION branch
(Renderer.hpp lines 91-93): `dot(reflDir, N) < 0 ? hitPoint + N*eps
: hitPoint - N*eps` - note the signs are the reverse of `secondaryOrigRR`. -/
def reflOrigR (hitPoint N : Vec3) (eps : ℝ) (rd : Vec3) : Vec3 :=
  if dotProduct rd N < 0 then hitPoint + N * eps else hitPoint - N * eps

/-- Shadow/light direction of the default branch (Renderer.hpp lines 113-116):
`normalize(light->position - hitPoint)`. -/
def shadowDir (light : Light) (hitPoint : Vec3) : Vec3 :=
  normalize (light.position - hitPoint)

/-- Occlusion test of the default branch (Renderer.hpp lines 120-122):
the shadow ray hits something and the squared hit distance is strictly
below the squared distance to the light. -/
def inShadow (objects : List Object) (shadowPointOrig lightDirN : Vec3)
    (lightDistance2 : ℝ) : Prop :=
  match trace shadowPointOrig lightDirN objects with
  | some shadow_res => shadow_res.tNear * shadow_res.tNear < lightDistance2
  | none => False

/-- Per-light increment of the diffuse accumulator `lightAmt`
(Renderer.hpp lines 113-124): zero when the light is occluded, else
`intensity * max(0, L·N)`. -/
def diffuseContrib (objects : List Object) (shadowPointOrig hitPoint N : Vec3)
    (light : Light) : Vec3 :=
  let lightDistance2 :=
    dotProduct (light.position - hitPoint) (light.position - hitPoint)
  let lightDir := shadowDir light hitPoint
  let LdotN := max 0 (dotProduct lightDir N)
  if inShadow objects shadowPointOrig lightDir lightDistance2 then 0
  else light.intensity * LdotN

/-- Per-light increment of the specular accumulator `specularColor`
(Renderer.hpp lines 125-130): `powf(max(0, -R·dir), specularExponent)
* intensity`, accumulated with no occlusion test. -/
def specularContrib (hitPoint N dir : Vec3) (specularExponent : ℝ)
    (light : Light) : Vec3 :=
  let reflectionDirection := reflect (-(shadowDir light hitPoint)) N
  (max 0 (-(dotProduct reflectionDirection dir))) ^ specularExponent *
    light.intensity

/-- `castRay` (Renderer.hpp lines 56-142).  Depth guard, nearest-hit search,
then dispatch on the hit object's material; the recursion is on `depth + 1`
and is bounded by the guard, with measure `maxDepth + 1 - depth`. -/
def castRay (orig dir : Vec3) (scene : Scene) (depth : ℕ) : Vec3 :=
  if h : scene.maxDepth < depth then ⟨0, 0, 0⟩
  else
    match trace orig dir scene.objects with
    | none => scene.backgroundColor
    | some payload =>
      let hitPoint := orig + dir * payload.tNear
      let Nst := payload.hit_obj.getSurfaceProperties hitPoint dir
        payload.index payload.uv
      let N := Nst.1
      let st := Nst.2
      match payload.hit_obj.materialType with
      | MaterialType.REFLECTION_AND_REFRACTION =>
        let reflectionDirection := reflDirRR dir N
        let refractionDirection := refrDirRR dir N payload.hit_obj.ior
        let reflectionRayOrig :=
          secondaryOrigRR hitPoint N scene.epsilon reflectionDirection
        let refractionRayOrig :=
          secondaryOrigRR hitPoint N scene.epsilon refractionDirection
        let reflectionColor :=
          castRay reflectionRayOrig reflectionDirection scene (depth + 1)
        let refractionColor :=
          castRay refractionRayOrig refractionDirection scene (depth + 1)
        let kr := fresnel dir N payload.hit_obj.ior
        reflectionColor * kr + refractionColor * (1 - kr)
      | MaterialType.REFLECTION =>
        let kr := fresnel dir N payload.hit_obj.ior
        let reflectionDirection := reflDirR dir N
        let reflectionRayOrig :=
          reflOrigR hitPoint N scene.epsilon reflectionDirection
        castRay reflectionRayOrig reflectionDirection scene (depth + 1) * kr
      | MaterialType.DIFFUSE_AND_GLOSSY =>
        let shadowPointOrig :=
          if dotProduct dir N < 0 then hitPoint + N * scene.epsilon
          else hitPoint - N * scene.epsilon
        let acc := List.foldl
          (fun acc light =>
            (acc.1 + diffuseContrib scene.objects shadowPointOrig hitPoint N light,
             acc.2 + specularContrib hitPoint N dir
               payload.hit_obj.specularExponent light))
          ((0 : Vec3), (0 : Vec3)) scene.lights
        acc.1 * payload.hit_obj.evalDiffuseColor st * payload.hit_obj.Kd +
          acc.2 * payload.hit_obj.Ks
termination_by scene.maxDepth + 1 - depth
decreasing_by all_goals omega

/-- Fuel-indexed variant of `castRay`: identical body, but the recursion is
on an explicit fuel counter.  Used to state that the recursion of `castRay`
is bounded by the measure `maxDepth + 1 - depth`. -/
def castRayFuel : ℕ → Vec3 → Vec3 → Scene → ℕ → Vec3
  | 0, _, _, _, _ => ⟨0, 0, 0⟩
  | fuel + 1, orig, dir, scene, depth =>
    if scene.maxDepth < depth then ⟨0, 0, 0⟩
    else
      match trace orig dir scene.objects with
      | none => scene.backgroundColor
      | some payload =>
        let hitPoint := orig + dir * payload.tNear
        let Nst := payload.hit_obj.getSurfaceProperties hitPoint dir
          payload.index payload.uv
        let N := Nst.1
        let st := Nst.2
        match payload.hit_obj.materialType with
        | MaterialType.REFLECTION_AND_REFRACTION =>
          let reflectionDirection := reflDirRR dir N
          let refractionDirection := refrDirRR dir N payload.hit_obj.ior
          let reflectionRayOrig :=
            secondaryOrigRR hitPoint N scene.epsilon reflectionDirection
          let refractionRayOrig :=
            secondaryOrigRR hitPoint N scene.epsilon refractionDirection
          let reflectionColor :=
            castRayFuel fuel reflectionRayOrig reflectionDirection scene (depth + 1)
          let refractionColor :=
            castRayFuel fuel refractionRayOrig refractionDirection scene (depth + 1)
          let kr := fresnel dir N payload.hit_obj.ior
          reflectionColor * kr + refractionColor * (1 - kr)
        | MaterialType.REFLECTION =>
          let kr := fresnel dir N payload.hit_obj.ior
          let reflectionDirection := reflDirR dir N
          let reflectionRayOrig :=
            reflOrigR hitPoint N scene.epsilon reflectionDirection
          castRayFuel fuel reflectionRayOrig reflectionDirection scene (depth + 1) * kr
        | MaterialType.DIFFUSE_AND_GLOSSY =>
          let shadowPointOrig :=
            if dotProduct dir N < 0 then hitPoint + N * scene.epsilon
            else hitPoint - N * scene.epsilon
          let acc := List.foldl
            (fun acc light =>
              (acc.1 + diffuseContrib scene.objects shadowPointOrig hitPoint N light,
               acc.2 + specularContrib hitPoint N dir
                 payload.hit_obj.specularExponent light))
            ((0 : Vec3), (0 : Vec3)) scene.lights
          acc.1 * payload.hit_obj.evalDiffuseColor st * payload.hit_obj.Kd +
            acc.2 * payload.hit_obj.Ks

/-- Truncation toward zero, the semantics of C++'s float-to-integer cast. -/
def cTrunc (x : ℝ) : ℤ := if 0 ≤ x then ⌊x⌋ else ⌈x⌉

/-- Channel byte of the Renderer.hpp writer (lines 203-205):
`(char)(255 * clamp(0, 1, c))` of the framebuffer channel `c`. -/
def channelByteHpp (c : ℝ) : ℤ := cTrunc (255 * clamp 0 1 c)

/-- Channel byte of the src/unnamed/part_000 writer: the framebuffer already
holds `255 * castRay(...)` (line 151) and `write_ppm_data` (line 179) casts
the channel directly with `(char)`, with no clamping. -/
def channelBytePart000 (c : ℝ) : ℤ := cTrunc (255 * c)

/-- The channel formula in the spec's words: `clamp(color,0,1) × 255`
truncated to an integer. -/
def specChannelByte (c : ℝ) : ℤ := cTrunc (clamp 0 1 c * 255)

/-- File-saving step of Renderer.hpp's `Render` (lines 198-208), with the
success of `fopen` abstracted as `openOk`.  The code never tests the
returned `FILE*`; it proceeds to `fprintf`/`fwrite`/`fclose` unconditionally
(undefined behavior on a NULL stream), so no failure is ever surfaced and
the model returns `ok` regardless of `openOk`. -/
def renderSaveHpp (openOk : Bool) (bytes : List ℤ) : Except String (List ℤ) :=
  Except.ok bytes

/-- `write_ppm_header` of src/unnamed/part_000 (lines 160-170), with the
stream-open success abstracted as `openOk`: throws on failure, else writes
the header fields. -/
def writePpmHeaderPart000 (openOk : Bool) (w h : ℕ) : Except String (List ℕ) :=
  if openOk then Except.ok [w, h]
  else Except.error ("write header error:file cannot open")

/-- Origin of the zero vector used by several concrete test configurations. -/
def uv0 : Vec2 := ⟨0, 0⟩

/-- Concrete diffuse object: a horizontal floor-like primitive that reports a
hit at distance 1 for any downward ray. -/
def objA : Object where
  intersect := fun _ d => if d.z < 0 then some (1, 0, uv0) else none
  getSurfaceProperties := fun _ _ _ _ => (⟨0, 0, 1⟩, uv0)
  evalDiffuseColor := fun _ => ⟨1, 1, 1⟩
  materialType := MaterialType.DIFFUSE_AND_GLOSSY
  ior := 1
  Kd := 1
  Ks := 1
  specularExponent := 1

/-- Concrete occluder: reports a hit at distance 1/2 for any upward ray,
so it blocks the shadow ray of `objA`'s hit point toward a light above. -/
def objB : Object where
  intersect := fun _ d => if 0 < d.z then some (1 / 2, 0, uv0) else none
  getSurfaceProperties := fun _ _ _ _ => (⟨0, 0, 1⟩, uv0)
  evalDiffuseColor := fun _ => ⟨1, 1, 1⟩
  materialType := MaterialType.DIFFUSE_AND_GLOSSY
  ior := 1
  Kd := 1
  Ks := 1
  specularExponent := 1

/-- Light directly above the origin at height 2, unit intensity. -/
def lightC1 : Light := ⟨⟨0, 0, 2⟩, ⟨1, 1, 1⟩⟩

/-- Diffuse test scene with one occluded light. -/
def sceneC1 : Scene := ⟨0, 1 / 10, ⟨0, 0, 0⟩, [objA, objB], [lightC1]⟩

/-- The same scene with the light removed. -/
def sceneC1noLight : Scene := ⟨0, 1 / 10, ⟨0, 0, 0⟩, [objA, objB], []⟩

/-- Reflective-and-refractive object hit at distance 1 by downward rays,
with ior = 1/2 so that oblique rays undergo total internal reflection. -/
def objC3 : Object where
  intersect := fun _ d => if d.z < 0 then some (1, 0, uv0) else none
  getSurfaceProperties := fun _ _ _ _ => (⟨0, 0, 1⟩, uv0)
  evalDiffuseColor := fun _ => ⟨1, 1, 1⟩
  materialType := MaterialType.REFLECTION_AND_REFRACTION
  ior := 1 / 2
  Kd := 1
  Ks := 1
  specularExponent := 1

/-- Scene for the total-internal-reflection test: nonblack background. -/
def sceneC3 : Scene := ⟨1, 1, ⟨1, 1, 1⟩, [objC3], []⟩

/-- Oblique incident direction that undergoes total internal reflection on
`objC3` (cosi = 1/2, discriminant 1 - 4·(3/4) = -2 < 0). -/
def dirC3 : Vec3 := ⟨1, 0, -(1 / 2)⟩

/-- Empty scene with a nonblack background and maxDepth 0. -/
def sceneC5 : Scene := ⟨0, 1, ⟨1, 1, 1⟩, [], []⟩

/-- Object reporting an intersection at exactly `kInfinity`, which the
strict `<` of `trace` ignores. -/
def objC6 : Object where
  intersect := fun _ _ => some (kInfinity, 0, uv0)
  getSurfaceProperties := fun _ _ _ _ => (⟨0, 0, 1⟩, uv0)
  evalDiffuseColor := fun _ => ⟨1, 1, 1⟩
  materialType := MaterialType.DIFFUSE_AND_GLOSSY
  ior := 1
  Kd := 1
  Ks := 1
  specularExponent := 1

/-- Object reporting no intersection at all. -/
def objW6 : Object where
  intersect := fun _ _ => none
  getSurfaceProperties := fun _ _ _ _ => (⟨0, 0, 1⟩, uv0)
  evalDiffuseColor := fun _ => ⟨1, 1, 1⟩
  materialType := MaterialType.DIFFUSE_AND_GLOSSY
  ior := 1
  Kd := 1
  Ks := 1
  specularExponent := 1

/-! Componentwise unfolding lemmas for the vector operations. -/

@[simp] theorem vadd_eq (a b : Vec3) :
    a + b = ⟨a.x + b.x, a.y + b.y, a.z + b.z⟩ := rfl

@[simp] theorem vsub_eq (a b : Vec3) :
    a - b = ⟨a.x - b.x, a.y - b.y, a.z - b.z⟩ := rfl

@[simp] theorem vneg_eq (a : Vec3) : -a = ⟨-a.x, -a.y, -a.z⟩ := rfl

@[simp] theorem vmul_eq (a b : Vec3) :
    a * b = ⟨a.x * b.x, a.y * b.y, a.z * b.z⟩ := rfl

@[simp] theorem vsmul_right_eq (v : Vec3) (r : ℝ) :
    v * r = ⟨v.x * r, v.y * r, v.z * r⟩ := rfl

@[simp] theorem vsmul_left_eq (r : ℝ) (v : Vec3) :
    r * v = ⟨v.x * r, v.y * r, v.z * r⟩ := rfl

@[simp] theorem vdiv_eq (v : Vec3) (r : ℝ) :
    v / r = ⟨v.x / r, v.y / r, v.z / r⟩ := rfl

@[simp] theorem vzero_eq : (0 : Vec3) = ⟨0, 0, 0⟩ := rfl

@[simp] theorem vzero_x : (0 : Vec3).x = 0 := rfl

@[simp] theorem vzero_y : (0 : Vec3).y = 0 := rfl

@[simp] theorem vzero_z : (0 : Vec3).z = 0 := rfl

theorem vsub_eq_zero_iff (a b : Vec3) : a - b = 0 ↔ a = b := by
  cases a; cases b
  simp [Vec3.mk.injEq, sub_eq_zero]

/-- C4: for every ray origin, direction, and scene, and for every depth
strictly greater than the scene's maximum recursion depth, castRay returns
pure black (0,0,0) immediately, regardless of ray or scene content. -/
theorem c4_depth_exceeded (orig dir : Vec3) (scene : Scene) (depth : ℕ)
    (h : scene.maxDepth < depth) : castRay orig dir scene depth = ⟨0, 0, 0⟩ := by
  rw [castRay.eq_def, dif_pos h]

/-- Witness for C4 at a concrete scene (maxDepth 0) and depth 1. -/
theorem c4_witness : castRay ⟨0, 0, 0⟩ ⟨0, 0, 0⟩ sceneC5 1 = ⟨0, 0, 0⟩ :=
  c4_depth_exceeded _ _ _ _ (by norm_num [sceneC5])

/-- C5 (amended): a ray that hits nothing yields the scene's background
color at every depth NOT exceeding the scene's maximum recursion depth
(beyond it the depth guard returns black first). -/
theorem c5_miss_background (orig dir : Vec3) (scene : Scene) (depth : ℕ)
    (hd : depth ≤ scene.maxDepth) (hm : trace orig dir scene.objects = none) :
    castRay orig dir scene depth = scene.backgroundColor := by
  rw [castRay.eq_def, dif_neg (by omega), hm]

/-- C5 counterexample: in an empty scene with background (1,1,1) and
maxDepth 0, a ray at depth 1 hits nothing yet castRay returns black,
not the background color. -/
theorem c5_counterexample :
    trace ⟨0, 0, 0⟩ ⟨0, 0, 0⟩ sceneC5.objects = none ∧
    castRay ⟨0, 0, 0⟩ ⟨0, 0, 0⟩ sceneC5 1 = ⟨0, 0, 0⟩ ∧
    sceneC5.backgroundColor = ⟨1, 1, 1⟩ ∧
    (⟨0, 0, 0⟩ : Vec3) ≠ ⟨1, 1, 1⟩ := by
  refine ⟨by simp [trace, traceAux, sceneC5], ?_, rfl, by simp [Vec3.mk.injEq]⟩
  rw [castRay.eq_def, dif_pos (by norm_num [sceneC5])]

/-- Witness for C5's amended theorem at the empty scene and depth 0. -/
theorem c5_witness :
    castRay ⟨0, 0, 0⟩ ⟨0, 0, 0⟩ sceneC5 0 = sceneC5.backgroundColor :=
  c5_miss_background _ _ _ _ (by norm_num [sceneC5])
    (by simp [trace, traceAux, sceneC5])

/-- C2 (amended): with a unit normal and positive epsilon, the
Reflective+Refractive branch offsets the secondary-ray origin to the side
of the surface its new direction points toward (the signed normal component
of the offset has the same sign as dot(newDir, N)), whereas the
Reflective-only branch uses the REVERSED signs: its origin moves to the side
OPPOSITE the one the reflected direction points toward. -/
theorem c2_offset_sides (hitPoint N : Vec3) (eps : ℝ) (rd : Vec3)
    (hN : dotProduct N N = 1) (heps : 0 < eps) (hrd : dotProduct rd N ≠ 0) :
    0 < dotProduct (secondaryOrigRR hitPoint N eps rd - hitPoint) N *
        dotProduct rd N ∧
    dotProduct (reflOrigR hitPoint N eps rd - hitPoint) N *
        dotProduct rd N < 0 := by
  have hplus : dotProduct (hitPoint + N * eps - hitPoint) N = eps := by
    simp only [vadd_eq, vsmul_right_eq, vsub_eq, dotProduct] at *
    linear_combination eps * hN
  have hminus : dotProduct (hitPoint - N * eps - hitPoint) N = -eps := by
    simp only [vsub_eq, vsmul_right_eq, dotProduct] at *
    linear_combination (-eps) * hN
  rcases lt_or_gt_of_ne hrd with hlt | hgt
  · rw [secondaryOrigRR, if_pos hlt, reflOrigR, if_pos hlt, hplus, hminus]
    exact ⟨mul_pos_of_neg_of_neg (by linarith) hlt, mul_neg_of_pos_of_neg heps hlt⟩
  · rw [secondaryOrigRR, if_neg (not_lt.mpr hgt.le), reflOrigR,
      if_neg (not_lt.mpr hgt.le), hplus, hminus]
    exact ⟨mul_pos heps hgt, mul_neg_of_neg_of_pos (by linarith) hgt⟩

/-- Witness for C2's amended theorem at a concrete configuration. -/
theorem c2_witness :
    0 < dotProduct (secondaryOrigRR ⟨0, 0, 0⟩ ⟨0, 0, 1⟩ 1 ⟨0, 0, -1⟩ - ⟨0, 0, 0⟩)
        ⟨0, 0, 1⟩ * dotProduct ⟨0, 0, -1⟩ ⟨0, 0, 1⟩ ∧
    dotProduct (reflOrigR ⟨0, 0, 0⟩ ⟨0, 0, 1⟩ 1 ⟨0, 0, -1⟩ - ⟨0, 0, 0⟩)
        ⟨0, 0, 1⟩ * dotProduct ⟨0, 0, -1⟩ ⟨0, 0, 1⟩ < 0 :=
  c2_offset_sides ⟨0, 0, 0⟩ ⟨0, 0, 1⟩ 1 ⟨0, 0, -1⟩
    (by norm_num [dotProduct]) (by norm_num) (by norm_num [dotProduct])

/-- C2 counterexample: for a reflected direction pointing to the negative
side of the normal, the Reflective-only branch puts the origin on the
POSITIVE side (hitPoint + N*eps), while the Reflective+Refractive branch
puts it on the negative side; the two offset rules differ, and the
Reflective-only origin lands on the side opposite its ray direction. -/
theorem c2_counterexample :
    reflOrigR ⟨0, 0, 0⟩ ⟨0, 0, 1⟩ 1 ⟨0, 0, -1⟩ = ⟨0, 0, 1⟩ ∧
    secondaryOrigRR ⟨0, 0, 0⟩ ⟨0, 0, 1⟩ 1 ⟨0, 0, -1⟩ = ⟨0, 0, -1⟩ ∧
    reflOrigR ⟨0, 0, 0⟩ ⟨0, 0, 1⟩ 1 ⟨0, 0, -1⟩ ≠
      secondaryOrigRR ⟨0, 0, 0⟩ ⟨0, 0, 1⟩ 1 ⟨0, 0, -1⟩ ∧
    dotProduct (reflOrigR ⟨0, 0, 0⟩ ⟨0, 0, 1⟩ 1 ⟨0, 0, -1⟩ - ⟨0, 0, 0⟩)
        ⟨0, 0, 1⟩ * dotProduct ⟨0, 0, -1⟩ ⟨0, 0, 1⟩ < 0 := by
  norm_num [reflOrigR, secondaryOrigRR, dotProduct, Vec3.mk.injEq]

/-- C3 (amended): whenever the discriminant `1 - (1/ior)²(1 - cosi²)` is
negative (total internal reflection), `refract` returns the zero vector and
no error is signaled.  (castRay then normalizes that zero vector - a
division by the zero length - and traces the degenerate ray, so the blended
refraction color is castRay of that ray, e.g. the background color on a
miss, not necessarily zero; see the counterexample.) -/
theorem c3_tir_refract_zero (I N : Vec3) (ior : ℝ)
    (h : 1 - 1 / ior * (1 / ior) *
      (1 - |clamp (-1) 1 (dotProduct I N)| * |clamp (-1) 1 (dotProduct I N)|) < 0) :
    refract I N ior = 0 := by
  unfold refract
  rw [if_pos h]

/-- Witness for C3's amended theorem: grazing incidence on an ior = 1/2
surface is beyond the critical angle and refract returns the zero vector. -/
theorem c3_witness : refract ⟨1, 0, 0⟩ ⟨0, 0, 1⟩ (1 / 2) = 0 :=
  c3_tir_refract_zero _ _ _ (by norm_num [clamp, dotProduct])

/-- C9 (amended): the Renderer.hpp writer's channel byte equals the spec's
`clamp(color,0,1) × 255` truncated, for every channel value; the
src/unnamed/part_000 writer omits the clamp, so its byte agrees with the
spec formula only when the channel value already lies in [0,1]. -/
theorem c9_channel_formula (c : ℝ) :
    channelByteHpp c = specChannelByte c ∧
    (0 ≤ c → c ≤ 1 → channelBytePart000 c = specChannelByte c) := by
  constructor
  · unfold channelByteHpp specChannelByte
    rw [mul_comm]
  · intro h0 h1
    unfold channelBytePart000 specChannelByte
    have hc : clamp 0 1 c = c := by
      unfold clamp
      rw [min_eq_right h1, max_eq_right h0]
    rw [hc, mul_comm]

/-- Witness for C9's amended theorem at channel value 1. -/
theorem c9_witness : channelBytePart000 1 = specChannelByte 1 :=
  (c9_channel_formula 1).2 (by norm_num) (by norm_num)

/-- C9 counterexample: for a shaded channel value of 2 (castRay output is
not bounded by 1), the part_000 writer computes byte 510, but the spec
formula gives 255. -/
theorem c9_counterexample :
    channelBytePart000 2 = 510 ∧ specChannelByte 2 = 255 ∧
    channelBytePart000 2 ≠ specChannelByte 2 := by
  have h1 : channelBytePart000 2 = 510 := by
    unfold channelBytePart000 cTrunc
    rw [if_pos (by norm_num)]
    rw [show (255 : ℝ) * 2 = ((510 : ℤ) : ℝ) by norm_num, Int.floor_intCast]
  have h2 : specChannelByte 2 = 255 := by
    unfold specChannelByte cTrunc clamp
    rw [min_eq_left (by norm_num), max_eq_right (by norm_num),
      if_pos (by norm_num)]
    rw [show (1 : ℝ) * 255 = ((255 : ℤ) : ℝ) by norm_num, Int.floor_intCast]
  exact ⟨h1, h2, by rw [h1, h2]; norm_num⟩

/-- C10: when the output file cannot be opened, the fopen-based writer of
Renderer.hpp surfaces no error at all (it never tests the FILE pointer and
proceeds into undefined behavior), while the ofstream-based writer of
src/unnamed/part_000 throws; evaluating both models at a failed open. -/
theorem c10_open_failure_not_surfaced :
    renderSaveHpp false [] = Except.ok [] ∧
    writePpmHeaderPart000 false 4 4 =
      Except.error ("write header error:file cannot open") := by
  exact ⟨rfl, rfl⟩

theorem vec3_ext (a b : Vec3) (h1 : a.x = b.x) (h2 : a.y = b.y)
    (h3 : a.z = b.z) : a = b := by
  cases a
  cases b
  simp only [Vec3.mk.injEq]
  exact ⟨h1, h2, h3⟩

theorem dot_self_nonneg (v : Vec3) : 0 ≤ dotProduct v v := by
  unfold dotProduct
  nlinarith [mul_self_nonneg v.x, mul_self_nonneg v.y, mul_self_nonneg v.z]

theorem dot_self_pos (v : Vec3) (hv : v ≠ 0) : 0 < dotProduct v v := by
  rcases eq_or_lt_of_le (dot_self_nonneg v) with h | h
  · exfalso
    apply hv
    have h' : v.x * v.x + v.y * v.y + v.z * v.z = 0 := by
      have := h.symm
      unfold dotProduct at this
      exact this
    have hx : v.x = 0 := mul_self_eq_zero.mp (le_antisymm
      (by nlinarith [mul_self_nonneg v.y, mul_self_nonneg v.z]) (mul_self_nonneg v.x))
    have hy : v.y = 0 := mul_self_eq_zero.mp (le_antisymm
      (by nlinarith [mul_self_nonneg v.x, mul_self_nonneg v.z]) (mul_self_nonneg v.y))
    have hz : v.z = 0 := mul_self_eq_zero.mp (le_antisymm
      (by nlinarith [mul_self_nonneg v.x, mul_self_nonneg v.y]) (mul_self_nonneg v.z))
    exact vec3_ext v 0 hx hy hz
  · exact h

theorem dot_normalize_self (v : Vec3) (hv : v ≠ 0) :
    dotProduct (normalize v) (normalize v) = 1 := by
  have hpos : 0 < v.x * v.x + v.y * v.y + v.z * v.z := by
    have := dot_self_pos v hv
    unfold dotProduct at this
    exact this
  unfold normalize length
  simp only [vdiv_eq, dotProduct]
  have h1 : v.x / Real.sqrt (v.x * v.x + v.y * v.y + v.z * v.z) *
        (v.x / Real.sqrt (v.x * v.x + v.y * v.y + v.z * v.z)) +
      v.y / Real.sqrt (v.x * v.x + v.y * v.y + v.z * v.z) *
        (v.y / Real.sqrt (v.x * v.x + v.y * v.y + v.z * v.z)) +
      v.z / Real.sqrt (v.x * v.x + v.y * v.y + v.z * v.z) *
        (v.z / Real.sqrt (v.x * v.x + v.y * v.y + v.z * v.z)) =
      (v.x * v.x + v.y * v.y + v.z * v.z) /
        Real.sqrt (v.x * v.x + v.y * v.y + v.z * v.z) ^ 2 := by
    ring
  rw [h1, Real.sq_sqrt hpos.le]
  exact div_self hpos.ne'

theorem dot_reflect_self (I N : Vec3) (hI : dotProduct I I = 1)
    (hN : dotProduct N N = 1) :
    dotProduct (reflect I N) (reflect I N) = 1 := by
  unfold reflect
  unfold dotProduct at *
  simp only [vsub_eq, vsmul_left_eq]
  linear_combination hI + (4 * (I.x * N.x + I.y * N.y + I.z * N.z) ^ 2) * hN

/-- C7 (amended): with unit incoming direction and unit normal, the derived
secondary directions that castRay passes to trace and to its recursive
calls are unit length - the normalized reflection direction of the
Reflective+Refractive branch, the UN-normalized reflection direction of the
Reflective-only branch (unit by algebra, though the code skips the
normalize call there), and the shadow direction for a light not located at
the hit point; the refraction direction is unit only when `refract` is
nonzero - under total internal reflection it is the normalization of the
zero vector, which is not unit length (see the counterexample). -/
theorem c7_unit_directions (dir N : Vec3) (light : Light) (hitPoint : Vec3)
    (ior : ℝ) (hdir : dotProduct dir dir = 1) (hN : dotProduct N N = 1) :
    dotProduct (reflDirRR dir N) (reflDirRR dir N) = 1 ∧
    dotProduct (reflDirR dir N) (reflDirR dir N) = 1 ∧
    (light.position ≠ hitPoint →
      dotProduct (shadowDir light hitPoint) (shadowDir light hitPoint) = 1) ∧
    (refract dir N ior ≠ 0 →
      dotProduct (refrDirRR dir N ior) (refrDirRR dir N ior) = 1) := by
  have hrefl := dot_reflect_self dir N hdir hN
  have hrne : reflect dir N ≠ 0 := by
    intro h
    rw [h] at hrefl
    simp [dotProduct] at hrefl
  refine ⟨dot_normalize_self _ hrne, hrefl, ?_, ?_⟩
  · intro hne
    apply dot_normalize_self
    rw [Ne, vsub_eq_zero_iff]
    exact hne
  · intro hne
    exact dot_normalize_self _ hne

/-- Witness for C7's amended theorem at a concrete configuration (normal
incidence, ior = 2, light above the origin). -/
theorem c7_witness :
    dotProduct (reflDirRR ⟨0, 0, -1⟩ ⟨0, 0, 1⟩) (reflDirRR ⟨0, 0, -1⟩ ⟨0, 0, 1⟩) = 1 ∧
    dotProduct (reflDirR ⟨0, 0, -1⟩ ⟨0, 0, 1⟩) (reflDirR ⟨0, 0, -1⟩ ⟨0, 0, 1⟩) = 1 ∧
    dotProduct (shadowDir ⟨⟨0, 0, 5⟩, ⟨1, 1, 1⟩⟩ ⟨0, 0, 0⟩)
      (shadowDir ⟨⟨0, 0, 5⟩, ⟨1, 1, 1⟩⟩ ⟨0, 0, 0⟩) = 1 ∧
    dotProduct (refrDirRR ⟨0, 0, -1⟩ ⟨0, 0, 1⟩ 2) (refrDirRR ⟨0, 0, -1⟩ ⟨0, 0, 1⟩ 2) = 1 := by
  have H := c7_unit_directions ⟨0, 0, -1⟩ ⟨0, 0, 1⟩ ⟨⟨0, 0, 5⟩, ⟨1, 1, 1⟩⟩ ⟨0, 0, 0⟩ 2
    (by norm_num [dotProduct]) (by norm_num [dotProduct])
  refine ⟨H.1, H.2.1, H.2.2.1 (by norm_num [Vec3.mk.injEq]), H.2.2.2 ?_⟩
  have hr : refract ⟨0, 0, -1⟩ ⟨0, 0, 1⟩ 2 = ⟨0, 0, -1⟩ := by
    unfold refract
    rw [if_neg (by norm_num [clamp, dotProduct])]
    simp only [clamp, dotProduct]
    norm_num [Real.sqrt_one, Vec3.mk.injEq]
  rw [hr]
  intro hcontra
  have hzc := congrArg Vec3.z hcontra
  norm_num at hzc

/-- C7 counterexample: for the unit grazing direction (1,0,0), unit normal
(0,0,1) and ior = 1/2 (total internal reflection), the refraction direction
castRay derives and recurses on is the normalization of the zero vector,
which is the zero vector - not unit length. -/
theorem c7_counterexample :
    dotProduct (⟨1, 0, 0⟩ : Vec3) ⟨1, 0, 0⟩ = 1 ∧
    dotProduct (⟨0, 0, 1⟩ : Vec3) ⟨0, 0, 1⟩ = 1 ∧
    refrDirRR ⟨1, 0, 0⟩ ⟨0, 0, 1⟩ (1 / 2) = ⟨0, 0, 0⟩ ∧
    dotProduct (refrDirRR ⟨1, 0, 0⟩ ⟨0, 0, 1⟩ (1 / 2))
      (refrDirRR ⟨1, 0, 0⟩ ⟨0, 0, 1⟩ (1 / 2)) ≠ 1 := by
  have h0 : refract ⟨1, 0, 0⟩ ⟨0, 0, 1⟩ (1 / 2) = 0 := by
    unfold refract
    rw [if_pos (by norm_num [clamp, dotProduct])]
  have hz : refrDirRR ⟨1, 0, 0⟩ ⟨0, 0, 1⟩ (1 / 2) = ⟨0, 0, 0⟩ := by
    unfold refrDirRR
    rw [h0]
    unfold normalize length
    norm_num [vzero_eq, Real.sqrt_zero]
  refine ⟨by norm_num [dotProduct], by norm_num [dotProduct], hz, ?_⟩
  rw [hz]
  norm_num [dotProduct]

theorem traceAux_spec (orig dir : Vec3) (l : List Object) :
    ∀ (tN : ℝ) (p : Option HitPayload),
      (traceAux orig dir l tN p = p ∧
        ∀ j o t i uv, l.get? j = some o →
          o.intersect orig dir = some (t, i, uv) → tN ≤ t) ∨
      (∃ j o t i uv, l.get? j = some o ∧
        o.intersect orig dir = some (t, i, uv) ∧ t < tN ∧
        traceAux orig dir l tN p = some ⟨t, i, uv, o⟩ ∧
        (∀ k o' t' i' uv', k < j → l.get? k = some o' →
          o'.intersect orig dir = some (t', i', uv') → t < t') ∧
        (∀ k o' t' i' uv', l.get? k = some o' →
          o'.intersect orig dir = some (t', i', uv') → t ≤ t')) := by
  induction l with
  | nil =>
    intro tN p
    left
    refine ⟨rfl, ?_⟩
    intro j o t i uv hj
    simp at hj
  | cons o rest ih =>
    intro tN p
    rcases ho : o.intersect orig dir with _ | ⟨t₀, i₀, uv₀⟩
    · have hstep : traceAux orig dir (o :: rest) tN p = traceAux orig dir rest tN p := by
        simp [traceAux, ho]
      rcases ih tN p with ⟨heq, hall⟩ | ⟨j, o₁, t, i, uv, hj, hint, hlt, heq, hbef, hall⟩
      · left
        refine ⟨hstep.trans heq, ?_⟩
        intro j o' t i uv hj hint
        cases j with
        | zero =>
          simp only [List.get?_cons_zero, Option.some.injEq] at hj
          subst hj
          rw [ho] at hint
          simp at hint
        | succ j' =>
          simp only [List.get?_cons_succ] at hj
          exact hall j' o' t i uv hj hint
      · right
        refine ⟨j + 1, o₁, t, i, uv, by simpa using hj, hint, hlt,
          hstep.trans heq, ?_, ?_⟩
        · intro k o' t' i' uv' hk hko hint'
          cases k with
          | zero =>
            simp only [List.get?_cons_zero, Option.some.injEq] at hko
            subst hko
            rw [ho] at hint'
            simp at hint'
          | succ k' =>
            simp only [List.get?_cons_succ] at hko
            exact hbef k' o' t' i' uv' (by omega) hko hint'
        · intro k o' t' i' uv' hko hint'
          cases k with
          | zero =>
            simp only [List.get?_cons_zero, Option.some.injEq] at hko
            subst hko
            rw [ho] at hint'
            simp at hint'
          | succ k' =>
            simp only [List.get?_cons_succ] at hko
            exact hall k' o' t' i' uv' hko hint'
    · by_cases hlt₀ : t₀ < tN
      · have hstep : traceAux orig dir (o :: rest) tN p =
            traceAux orig dir rest t₀ (some ⟨t₀, i₀, uv₀, o⟩) := by
          simp [traceAux, ho, hlt₀]
        rcases ih t₀ (some ⟨t₀, i₀, uv₀, o⟩) with ⟨heq, hall⟩ |
          ⟨j, o₁, t, i, uv, hj, hint, hlt, heq, hbef, hall⟩
        · right
          refine ⟨0, o, t₀, i₀, uv₀, by simp, ho, hlt₀, hstep.trans heq, ?_, ?_⟩
          · intro k o' t' i' uv' hk
            exact absurd hk (Nat.not_lt_zero k)
          · intro k o' t' i' uv' hko hint'
            cases k with
            | zero =>
              simp only [List.get?_cons_zero, Option.some.injEq] at hko
              subst hko
              rw [ho] at hint'
              simp only [Option.some.injEq, Prod.mk.injEq] at hint'
              rw [← hint'.1]
            | succ k' =>
              simp only [List.get?_cons_succ] at hko
              exact hall k' o' t' i' uv' hko hint'
        · right
          refine ⟨j + 1, o₁, t, i, uv, by simpa using hj, hint,
            lt_trans hlt hlt₀, hstep.trans heq, ?_, ?_⟩
          · intro k o' t' i' uv' hk hko hint'
            cases k with
            | zero =>
              simp only [List.get?_cons_zero, Option.some.injEq] at hko
              subst hko
              rw [ho] at hint'
              simp only [Option.some.injEq, Prod.mk.injEq] at hint'
              rw [← hint'.1]
              exact hlt
            | succ k' =>
              simp only [List.get?_cons_succ] at hko
              exact hbef k' o' t' i' uv' (by omega) hko hint'
          · intro k o' t' i' uv' hko hint'
            cases k with
            | zero =>
              simp only [List.get?_cons_zero, Option.some.injEq] at hko
              subst hko
              rw [ho] at hint'
              simp only [Option.some.injEq, Prod.mk.injEq] at hint'
              rw [← hint'.1]
              exact hlt.le
            | succ k' =>
              simp only [List.get?_cons_succ] at hko
              exact hall k' o' t' i' uv' hko hint'
      · have hstep : traceAux orig dir (o :: rest) tN p = traceAux orig dir rest tN p := by
          simp [traceAux, ho, hlt₀]
        rcases ih tN p with ⟨heq, hall⟩ | ⟨j, o₁, t, i, uv, hj, hint, hlt, heq, hbef, hall⟩
        · left
          refine ⟨hstep.trans heq, ?_⟩
          intro j o' t i uv hj hint
          cases j with
          | zero =>
            simp only [List.get?_cons_zero, Option.some.injEq] at hj
            subst hj
            rw [ho] at hint
            simp only [Option.some.injEq, Prod.mk.injEq] at hint
            rw [← hint.1]
            exact not_lt.mp hlt₀
          | succ j' =>
            simp only [List.get?_cons_succ] at hj
            exact hall j' o' t i uv hj hint
        · right
          refine ⟨j + 1, o₁, t, i, uv, by simpa using hj, hint, hlt,
            hstep.trans heq, ?_, ?_⟩
          · intro k o' t' i' uv' hk hko hint'
            cases k with
            | zero =>
              simp only [List.get?_cons_zero, Option.some.injEq] at hko
              subst hko
              rw [ho] at hint'
              simp only [Option.some.injEq, Prod.mk.injEq] at hint'
              rw [← hint'.1]
              calc t < tN := hlt
                _ ≤ t₀ := not_lt.mp hlt₀
            | succ k' =>
              simp only [List.get?_cons_succ] at hko
              exact hbef k' o' t' i' uv' (by omega) hko hint'
          · intro k o' t' i' uv' hko hint'
            cases k with
            | zero =>
              simp only [List.get?_cons_zero, Option.some.injEq] at hko
              subst hko
              rw [ho] at hint'
              simp only [Option.some.injEq, Prod.mk.injEq] at hint'
              rw [← hint'.1]
              calc t ≤ tN := hlt.le
                _ ≤ t₀ := not_lt.mp hlt₀
            | succ k' =>
              simp only [List.get?_cons_succ] at hko
              exact hall k' o' t' i' uv' hko hint'

/-- C6 (amended): trace returns absent exactly when no primitive reports an
intersection at distance below kInfinity (a hit reported at distance >=
kInfinity = FLT_MAX is ignored by the strict comparison against the running
best, initialized to kInfinity); otherwise it returns the hit record of the
globally closest reported intersection, with ties broken in favor of the
first-encountered primitive (every earlier primitive reports a strictly
larger distance). -/
theorem c6_trace_characterization (orig dir : Vec3) (objects : List Object) :
    (trace orig dir objects = none ↔
      ∀ j o t i uv, objects.get? j = some o →
        o.intersect orig dir = some (t, i, uv) → kInfinity ≤ t) ∧
    ∀ q, trace orig dir objects = some q →
      q.tNear < kInfinity ∧
      (∃ j o, objects.get? j = some o ∧
        o.intersect orig dir = some (q.tNear, q.index, q.uv) ∧ q.hit_obj = o ∧
        (∀ k o' t' i' uv', k < j → objects.get? k = some o' →
          o'.intersect orig dir = some (t', i', uv') → q.tNear < t')) ∧
      (∀ k o' t' i' uv', objects.get? k = some o' →
        o'.intersect orig dir = some (t', i', uv') → q.tNear ≤ t') := by
  have H := traceAux_spec orig dir objects kInfinity none
  rcases H with ⟨heq, hall⟩ | ⟨j, o, t, i, uv, hj, hint, hlt, heq, hbef, hmin⟩
  · constructor
    · unfold trace
      rw [heq]
      exact ⟨fun _ => hall, fun _ => rfl⟩
    · intro q hq
      unfold trace at hq
      rw [heq] at hq
      cases hq
  · constructor
    · unfold trace
      rw [heq]
      constructor
      · intro hc
        cases hc
      · intro hf
        exact absurd (hf j o t i uv hj hint) (not_le.mpr hlt)
    · intro q hq
      unfold trace at hq
      rw [heq] at hq
      have hq' : (⟨t, i, uv, o⟩ : HitPayload) = q := by
        injection hq
      subst hq'
      exact ⟨hlt, ⟨j, o, hj, hint, rfl, hbef⟩, hmin⟩

/-- Witness for C6's amended theorem: applying the characterization to a
one-object list whose primitive reports no intersection. -/
theorem c6_witness : trace ⟨0, 0, 0⟩ ⟨0, 0, 0⟩ [objW6] = none := by
  apply (c6_trace_characterization ⟨0, 0, 0⟩ ⟨0, 0, 0⟩ [objW6]).1.mpr
  intro j o t i uv hj hint
  cases j with
  | zero =>
    simp only [List.get?_cons_zero, Option.some.injEq] at hj
    subst hj
    simp [objW6] at hint
  | succ j' =>
    simp at hj

/-- C6 counterexample: a primitive that reports an intersection at exactly
kInfinity is ignored by the strict comparison, so trace returns absent even
though a primitive reported an intersection. -/
theorem c6_counterexample :
    trace ⟨0, 0, 0⟩ ⟨0, 0, 0⟩ [objC6] = none ∧
    objC6.intersect ⟨0, 0, 0⟩ ⟨0, 0, 0⟩ = some (kInfinity, 0, uv0) := by
  constructor
  · simp [trace, traceAux, objC6, lt_irrefl]
  · rfl

/-- C8: castRay's recursion is bounded: supplying any fuel of at least
`maxDepth + 1 - depth` to the fuel-indexed variant reproduces castRay
exactly - each recursive call is at depth + 1 and the guard
`depth > maxDepth` stops the recursion, so the measure
`maxDepth + 1 - depth` strictly decreases and the function terminates. -/
theorem c8_bounded_recursion (fuel : ℕ) :
    ∀ (orig dir : Vec3) (scene : Scene) (depth : ℕ),
      scene.maxDepth + 1 - depth ≤ fuel →
      castRayFuel fuel orig dir scene depth = castRay orig dir scene depth := by
  induction fuel with
  | zero =>
    intro orig dir scene depth h
    have hd : scene.maxDepth < depth := by omega
    rw [castRay.eq_def, dif_pos hd]
    rfl
  | succ fuel ih =>
    intro orig dir scene depth h
    rw [castRay.eq_def]
    by_cases hd : scene.maxDepth < depth
    · rw [dif_pos hd]
      simp only [castRayFuel, if_pos hd]
    · rw [dif_neg hd]
      have hrec : scene.maxDepth + 1 - (depth + 1) ≤ fuel := by omega
      simp only [castRayFuel, if_neg hd]
      cases htr : trace orig dir scene.objects with
      | none => rfl
      | some payload =>
        dsimp only
        cases payload.hit_obj.materialType with
        | DIFFUSE_AND_GLOSSY => rfl
        | REFLECTION_AND_REFRACTION =>
          dsimp only
          rw [ih _ _ _ _ hrec, ih _ _ _ _ hrec]
        | REFLECTION =>
          dsimp only
          rw [ih _ _ _ _ hrec]

/-- Witness for C8 at a concrete scene (maxDepth 0, depth 0, fuel 1). -/
theorem c8_witness :
    castRayFuel 1 ⟨0, 0, 0⟩ ⟨0, 0, 0⟩ sceneC5 0 = castRay ⟨0, 0, 0⟩ ⟨0, 0, 0⟩ sceneC5 0 :=
  c8_bounded_recursion 1 _ _ _ _ (by norm_num [sceneC5])

/-! Concrete evaluation helpers for the diffuse shadow scene (sceneC1). -/

theorem sqrt_four : Real.sqrt 4 = 2 := by
  rw [show (4 : ℝ) = 2 ^ 2 by norm_num, Real.sqrt_sq (by norm_num : (0 : ℝ) ≤ 2)]

theorem trace_c1_primary :
    trace ⟨0, 0, 1⟩ ⟨0, 0, -1⟩ [objA, objB] = some ⟨1, 0, uv0, objA⟩ := by
  simp [trace, traceAux, objA, objB, kInfinity]
  norm_num

theorem trace_c1_shadow :
    trace ⟨0, 0, 1 / 10⟩ ⟨0, 0, 1⟩ [objA, objB] = some ⟨1 / 2, 0, uv0, objB⟩ := by
  simp [trace, traceAux, objA, objB, kInfinity]
  norm_num

theorem shadowDir_c1 : shadowDir lightC1 ⟨0, 0, 0⟩ = ⟨0, 0, 1⟩ := by
  unfold shadowDir normalize length lightC1
  norm_num [sqrt_four]

theorem inShadow_c1 :
    inShadow [objA, objB] ⟨0, 0, 1 / 10⟩ (shadowDir lightC1 ⟨0, 0, 0⟩)
      (dotProduct (lightC1.position - ⟨0, 0, 0⟩) (lightC1.position - ⟨0, 0, 0⟩)) := by
  unfold inShadow
  rw [shadowDir_c1, trace_c1_shadow]
  norm_num [lightC1, dotProduct]

theorem specular_c1 :
    specularContrib ⟨0, 0, 0⟩ ⟨0, 0, 1⟩ ⟨0, 0, -1⟩ objA.specularExponent lightC1
      = ⟨1, 1, 1⟩ := by
  unfold specularContrib
  rw [shadowDir_c1]
  unfold reflect
  rw [show objA.specularExponent = (1 : ℝ) from rfl]
  norm_num [dotProduct, lightC1]

theorem diffuse_c1 :
    diffuseContrib [objA, objB] ⟨0, 0, 1 / 10⟩ ⟨0, 0, 0⟩ ⟨0, 0, 1⟩ lightC1 = 0 := by
  unfold diffuseContrib
  rw [if_pos inShadow_c1]

theorem objA_mat : objA.materialType = MaterialType.DIFFUSE_AND_GLOSSY := rfl

theorem objA_gsp (p d : Vec3) (i : ℕ) (u : Vec2) :
    objA.getSurfaceProperties p d i u = (⟨0, 0, 1⟩, uv0) := rfl

theorem castRay_c1 : castRay ⟨0, 0, 1⟩ ⟨0, 0, -1⟩ sceneC1 0 = ⟨1, 1, 1⟩ := by
  rw [castRay.eq_def, dif_neg (by norm_num [sceneC1])]
  rw [show sceneC1.objects = [objA, objB] from rfl, trace_c1_primary]
  dsimp only
  rw [objA_mat]
  dsimp only
  rw [objA_gsp]
  dsimp only
  rw [if_pos (show dotProduct ⟨0, 0, -1⟩ ⟨0, 0, 1⟩ < 0 by norm_num [dotProduct])]
  rw [show sceneC1.epsilon = (1 / 10 : ℝ) from rfl]
  simp only [List.foldl]
  rw [show (⟨0, 0, 1⟩ : Vec3) + (⟨0, 0, -1⟩ : Vec3) * (1 : ℝ) = ⟨0, 0, 0⟩ by norm_num,
    show (⟨0, 0, 0⟩ : Vec3) + (⟨0, 0, 1⟩ : Vec3) * (1 / 10 : ℝ) = ⟨0, 0, 1 / 10⟩ by norm_num]
  rw [diffuse_c1, specular_c1]
  rw [show objA.Kd = (1 : ℝ) from rfl, show objA.Ks = (1 : ℝ) from rfl,
    show objA.evalDiffuseColor uv0 = ⟨1, 1, 1⟩ from rfl]
  norm_num

theorem castRay_c1_nolight :
    castRay ⟨0, 0, 1⟩ ⟨0, 0, -1⟩ sceneC1noLight 0 = ⟨0, 0, 0⟩ := by
  rw [castRay.eq_def, dif_neg (by norm_num [sceneC1noLight])]
  rw [show sceneC1noLight.objects = [objA, objB] from rfl, trace_c1_primary]
  dsimp only
  rw [objA_mat]
  dsimp only
  rw [objA_gsp]
  dsimp only
  rw [if_pos (show dotProduct ⟨0, 0, -1⟩ ⟨0, 0, 1⟩ < 0 by norm_num [dotProduct])]
  simp only [List.foldl]
  rw [show objA.Kd = (1 : ℝ) from rfl, show objA.Ks = (1 : ℝ) from rfl,
    show objA.evalDiffuseColor uv0 = ⟨1, 1, 1⟩ from rfl]
  norm_num

/-- C1 counterexample: in sceneC1 the single light is occluded (the shadow
ray hits the occluder at distance 1/2, and (1/2)² < 4, the squared light
distance), yet the light still contributes: its specular increment is
(1,1,1), and castRay returns (1,1,1) with the light present versus (0,0,0)
with the light removed - an occluded light does NOT contribute nothing. -/
theorem c1_counterexample :
    inShadow [objA, objB] ⟨0, 0, 1 / 10⟩ (shadowDir lightC1 ⟨0, 0, 0⟩)
      (dotProduct (lightC1.position - ⟨0, 0, 0⟩) (lightC1.position - ⟨0, 0, 0⟩)) ∧
    specularContrib ⟨0, 0, 0⟩ ⟨0, 0, 1⟩ ⟨0, 0, -1⟩ objA.specularExponent lightC1 ≠ 0 ∧
    castRay ⟨0, 0, 1⟩ ⟨0, 0, -1⟩ sceneC1 0 = ⟨1, 1, 1⟩ ∧
    castRay ⟨0, 0, 1⟩ ⟨0, 0, -1⟩ sceneC1noLight 0 = ⟨0, 0, 0⟩ := by
  refine ⟨inShadow_c1, ?_, castRay_c1, castRay_c1_nolight⟩
  rw [specular_c1]
  intro h
  have := congrArg Vec3.x h
  norm_num at this

/-- C1 (amended): an occluded light (shadow-ray hit with squared distance
strictly below the squared light distance) contributes nothing to the
DIFFUSE accumulator; its specular term, however, is accumulated
unconditionally by the code (see the counterexample). -/
theorem c1_diffuse_occluded (objects : List Object)
    (shadowPointOrig hitPoint N : Vec3) (light : Light)
    (h : inShadow objects shadowPointOrig (shadowDir light hitPoint)
      (dotProduct (light.position - hitPoint) (light.position - hitPoint))) :
    diffuseContrib objects shadowPointOrig hitPoint N light = 0 := by
  unfold diffuseContrib
  rw [if_pos h]

/-- Witness for C1's amended theorem at the concrete occluded
configuration of sceneC1. -/
theorem c1_witness :
    diffuseContrib [objA, objB] ⟨0, 0, 1 / 10⟩ ⟨0, 0, 0⟩ ⟨0, 0, 1⟩ lightC1 = 0 :=
  c1_diffuse_occluded [objA, objB] ⟨0, 0, 1 / 10⟩ ⟨0, 0, 0⟩ ⟨0, 0, 1⟩ lightC1
    inShadow_c1

/-! Concrete evaluation helpers for the total-internal-reflection scene
(sceneC3). -/

theorem refract_c3 : refract dirC3 ⟨0, 0, 1⟩ (1 / 2) = 0 := by
  unfold refract dirC3
  rw [if_pos (by norm_num [clamp, dotProduct])]

theorem reflect_c3 : reflect dirC3 ⟨0, 0, 1⟩ = ⟨1, 0, 1 / 2⟩ := by
  unfold reflect dirC3
  norm_num [dotProduct]

theorem reflDirRR_c3 :
    reflDirRR dirC3 ⟨0, 0, 1⟩ =
      ⟨1 / Real.sqrt (5 / 4), 0, 1 / 2 / Real.sqrt (5 / 4)⟩ := by
  unfold reflDirRR normalize length
  rw [reflect_c3]
  norm_num

theorem reflDirRR_c3_z_pos : 0 < (reflDirRR dirC3 ⟨0, 0, 1⟩).z := by
  rw [reflDirRR_c3]
  have hs : 0 < Real.sqrt (5 / 4) := Real.sqrt_pos.mpr (by norm_num)
  exact div_pos (by norm_num) hs

theorem refrDirRR_c3 : refrDirRR dirC3 ⟨0, 0, 1⟩ (1 / 2) = ⟨0, 0, 0⟩ := by
  unfold refrDirRR
  rw [refract_c3]
  unfold normalize length
  norm_num [Real.sqrt_zero]

theorem fresnel_c3 : fresnel dirC3 ⟨0, 0, 1⟩ (1 / 2) = 5 / 36 := by
  unfold fresnel dirC3
  norm_num [clamp, dotProduct]
  rw [abs_of_pos (by norm_num : (0 : ℝ) < 1 / 2)]
  norm_num

theorem secondaryOrigRR_c3_refl :
    secondaryOrigRR ⟨1, 0, -(1 / 2)⟩ ⟨0, 0, 1⟩ 1 (reflDirRR dirC3 ⟨0, 0, 1⟩)
      = ⟨1, 0, 1 / 2⟩ := by
  unfold secondaryOrigRR
  rw [if_neg ?hc]
  case hc =>
    rw [not_lt]
    have h := reflDirRR_c3_z_pos
    rw [show dotProduct (reflDirRR dirC3 ⟨0, 0, 1⟩) ⟨0, 0, 1⟩ =
        (reflDirRR dirC3 ⟨0, 0, 1⟩).z by simp [dotProduct]]
    exact h.le
  norm_num

theorem castRay_c3_refl :
    castRay ⟨1, 0, 1 / 2⟩ (reflDirRR dirC3 ⟨0, 0, 1⟩) sceneC3 1 = ⟨1, 1, 1⟩ := by
  rw [castRay.eq_def, dif_neg (by norm_num [sceneC3])]
  have htr : trace ⟨1, 0, 1 / 2⟩ (reflDirRR dirC3 ⟨0, 0, 1⟩) sceneC3.objects = none := by
    rw [show sceneC3.objects = [objC3] from rfl]
    simp only [trace, traceAux, objC3]
    rw [if_neg (not_lt.mpr reflDirRR_c3_z_pos.le)]
  rw [htr]
  rfl

theorem castRay_c3_zerodir :
    castRay ⟨1, 0, 1 / 2⟩ ⟨0, 0, 0⟩ sceneC3 1 = ⟨1, 1, 1⟩ := by
  rw [castRay.eq_def, dif_neg (by norm_num [sceneC3])]
  have htr : trace ⟨1, 0, 1 / 2⟩ ⟨0, 0, 0⟩ sceneC3.objects = none := by
    rw [show sceneC3.objects = [objC3] from rfl]
    simp only [trace, traceAux, objC3]
    norm_num
  rw [htr]
  rfl

theorem objC3_mat : objC3.materialType = MaterialType.REFLECTION_AND_REFRACTION := rfl

theorem objC3_gsp (p d : Vec3) (i : ℕ) (u : Vec2) :
    objC3.getSurfaceProperties p d i u = (⟨0, 0, 1⟩, uv0) := rfl

theorem castRay_c3_main : castRay ⟨0, 0, 0⟩ dirC3 sceneC3 0 = ⟨1, 1, 1⟩ := by
  rw [castRay.eq_def, dif_neg (by norm_num [sceneC3])]
  have htr : trace ⟨0, 0, 0⟩ dirC3 sceneC3.objects = some ⟨1, 0, uv0, objC3⟩ := by
    rw [show sceneC3.objects = [objC3] from rfl]
    simp [trace, traceAux, objC3, dirC3, kInfinity]
    norm_num
  rw [htr]
  dsimp only
  rw [objC3_mat]
  dsimp only
  rw [objC3_gsp]
  dsimp only
  rw [show objC3.ior = (1 / 2 : ℝ) from rfl,
    show sceneC3.epsilon = (1 : ℝ) from rfl,
    show (⟨0, 0, 0⟩ : Vec3) + dirC3 * (1 : ℝ) = ⟨1, 0, -(1 / 2)⟩ by
      unfold dirC3; norm_num]
  rw [refrDirRR_c3, secondaryOrigRR_c3_refl]
  rw [show secondaryOrigRR ⟨1, 0, -(1 / 2)⟩ ⟨0, 0, 1⟩ 1 ⟨0, 0, 0⟩ = ⟨1, 0, 1 / 2⟩ by
    unfold secondaryOrigRR
    rw [if_neg (by norm_num [dotProduct])]
    norm_num]
  rw [castRay_c3_refl, castRay_c3_zerodir, fresnel_c3]
  norm_num

/-- C3 counterexample: for the oblique ray dirC3 on the ior = 1/2 sphere of
sceneC3 the discriminant is negative (total internal reflection), yet the
color castRay returns, (1,1,1), is NOT the pure-reflection path scaled by
kr: the refraction term contributes the background color times (1 - kr),
because castRay traces the degenerate ray normalize(0); the refraction
contribution is not the zero vector. -/
theorem c3_counterexample :
    (1 - 1 / (1 / 2) * (1 / (1 / 2)) *
      (1 - |clamp (-1) 1 (dotProduct dirC3 ⟨0, 0, 1⟩)| *
        |clamp (-1) 1 (dotProduct dirC3 ⟨0, 0, 1⟩)|) < 0) ∧
    castRay ⟨0, 0, 0⟩ dirC3 sceneC3 0 = ⟨1, 1, 1⟩ ∧
    castRay ⟨0, 0, 0⟩ dirC3 sceneC3 0 ≠
      castRay (secondaryOrigRR ⟨1, 0, -(1 / 2)⟩ ⟨0, 0, 1⟩ 1 (reflDirRR dirC3 ⟨0, 0, 1⟩))
        (reflDirRR dirC3 ⟨0, 0, 1⟩) sceneC3 1 * fresnel dirC3 ⟨0, 0, 1⟩ (1 / 2) := by
  refine ⟨by norm_num [clamp, dotProduct, dirC3], castRay_c3_main, ?_⟩
  rw [castRay_c3_main, secondaryOrigRR_c3_refl, castRay_c3_refl, fresnel_c3]
  intro h
  have := congrArg Vec3.x h
  norm_num at this

end RayTracer

end
